import Mathlib

/-!
Verification development for the horuseye-recon tool command construction,
execution classification and artifact routing engine.

The definitions below are a shallow embedding of `src/app/tool_runner.py`
and `src/app/post_processing.py`.  Python values that can be `None`, a
string or a boolean are modelled by `PyVal`; argv tokens (which the code
can accidentally populate with non-string Python objects) are modelled by
`Tok`.  Filesystem side effects (directory creation, file writes) do not
influence the returned command vectors and are omitted; where the returned
value does depend on the outside world (process outcome, directory listing,
template presence, upload results) that dependency is passed in as an
explicit argument.  The project root resolved at runtime from the module
location is the container path `/app`, matching the literal
`/app/outputs/...` paths used by the builders themselves.
-/

/-- Lists-of-chars test: does `pre` start the second list?  Mirrors what
Python substring search needs; used to define substring containment. -/
def startsWithList : List Char → List Char → Bool
  | [], _ => true
  | _ :: _, [] => false
  | a :: as, b :: bs => a == b && startsWithList as bs

/-- Does the second list contain the first as a contiguous run?  Mirrors
the semantics of the Python `in` operator on strings (an empty needle is
contained in everything). -/
def hasSubList (needle : List Char) : List Char → Bool
  | [] => needle.isEmpty
  | c :: t => startsWithList needle (c :: t) || hasSubList needle t

/-- Python `needle in hay` on strings. -/
def hasSub (hay needle : String) : Bool :=
  hasSubList needle.data hay.data

/-- Python `str.lower()` (ASCII, which is all the code compares). -/
def pyLower (s : String) : String :=
  String.mk (s.data.map Char.toLower)

/-- Python `str.startswith(pre)`. -/
def strStartsWith (s pre : String) : Bool :=
  startsWithList pre.data s.data

/-- A Python value as it can appear in a parameter `value` field:
`None`, a string, or a boolean. -/
inductive PyVal
  | none
  | str (v : String)
  | bool (v : Bool)
deriving DecidableEq, Repr

/-- Python `str(value)`. -/
def pyStr : PyVal → String
  | PyVal.none => "None"
  | PyVal.str v => v
  | PyVal.bool true => "True"
  | PyVal.bool false => "False"

/-- Python truthiness of a parameter value. -/
def pyTruthy : PyVal → Bool
  | PyVal.none => false
  | PyVal.str v => !(v == "")
  | PyVal.bool v => v

/-- Python `value in (True, "true")`, the truthiness test most builders use. -/
def isTrueLike (v : PyVal) : Bool :=
  v == PyVal.bool true || v == PyVal.str "true"

/-- Python `value in (True, "true", "True")`, used by the dnsenum builder. -/
def isTrueLike3 (v : PyVal) : Bool :=
  v == PyVal.bool true || v == PyVal.str "true" || v == PyVal.str "True"

/-- A normalized tool parameter.  Both the attribute-style and the
mapping-style access paths in the source read the same three fields; a
mapping may lack the flag entirely, hence `Option`. -/
structure Param where
  flag : Option String
  value : PyVal
  requiresValue : Bool
deriving DecidableEq, Repr

/-- One argv token.  Python lists can end up holding `None` or a bool
where a string was intended; the embedding keeps that visible. -/
inductive Tok
  | none
  | b (v : Bool)
  | s (v : String)
deriving DecidableEq, Repr

/-- The token a (possibly missing) flag becomes when appended verbatim. -/
def tokOf : Option String → Tok
  | Option.none => Tok.none
  | some f => Tok.s f

/-- The token a raw Python value becomes when appended verbatim. -/
def tokOfVal : PyVal → Tok
  | PyVal.none => Tok.none
  | PyVal.str v => Tok.s v
  | PyVal.bool v => Tok.b v

/-- Python `not flag` for an optional string flag. -/
def flagFalsy : Option String → Bool
  | Option.none => true
  | some f => f == ""

/-- The generic emission step of the nmap builder: `[flag, str(value)]`
when the parameter requires a value and one is present, a bare flag when
it does not and the value is `True`/"true", nothing otherwise. -/
def emitNmapStyle (f : String) (v : PyVal) (rv : Bool) : List Tok :=
  if rv = true ∧ v ≠ PyVal.none then [Tok.s f, Tok.s (pyStr v)]
  else if rv = false ∧ isTrueLike v = true then [Tok.s f]
  else []

/-- The generic emission step shared by the masscan, amass, subfinder and
theharvester builders: `[flag, str(value)]` when the value is present and
not `True`/"true", a bare flag when it is `True`/"true", nothing when it
is `None`.  The flag is appended verbatim, even when missing. -/
def emitLoose (fl : Option String) (v : PyVal) : List Tok :=
  if v ≠ PyVal.none ∧ isTrueLike v = false then [tokOf fl, Tok.s (pyStr v)]
  else if isTrueLike v = true then [tokOf fl]
  else []

/-- The generic emission step shared by the gobuster, dirsearch and
whatweb builders: `[flag, str(value)]` when the value is present and its
lowercased string form is none of "true", "1", ""; a bare flag when the
value is `True`/"true"; nothing otherwise. -/
def emitStrFilter (f : String) (v : PyVal) : List Tok :=
  if v ≠ PyVal.none ∧ pyLower (pyStr v) ≠ "true" ∧ pyLower (pyStr v) ≠ "1"
      ∧ pyLower (pyStr v) ≠ "" then [Tok.s f, Tok.s (pyStr v)]
  else if isTrueLike v = true then [Tok.s f]
  else []

/-- The generic emission step of the dnsenum builder, which treats
`True`, "true" and "True" as the boolean-flag values. -/
def emitDnsenum (f : String) (v : PyVal) : List Tok :=
  if v ≠ PyVal.none ∧ isTrueLike3 v = false then [Tok.s f, Tok.s (pyStr v)]
  else if isTrueLike3 v = true then [Tok.s f]
  else []

/-- Prefix `http://` when the value has no scheme. -/
def urlOf (u : String) : String :=
  if strStartsWith u "http://" = true ∨ strStartsWith u "https://" = true then u
  else "http://" ++ u

/-- Python `target.replace(".", "_")` (single-character pattern). -/
def dotToUnderscore (t : String) : String :=
  String.mk (t.data.map (fun c => if c = '.' then '_' else c))

/-- Occurrences of a token in a vector. -/
def countTok : List Tok → Tok → Nat
  | [], _ => 0
  | x :: xs, t => (if x = t then 1 else 0) + countTok xs t

/-- Python `s[-n:]`. -/
def lastChars (n : Nat) (s : String) : String :=
  String.mk ((s.data.reverse.take n).reverse)

/-- Loop body of `build_nmap_command` (tool_runner.py lines 154-168).
Parameters with a falsy flag or the `<target>` sentinel are skipped; the
three recognized output flags are rewritten to point at `outputBase` and
record that an output flag was seen; everything else goes through the
nmap-style emission. -/
def nmapLoop (outputBase : String) : List Param → List Tok × Bool
  | [] => ([], false)
  | p :: rest =>
    let r := nmapLoop outputBase rest
    if flagFalsy p.flag = true ∨ p.flag = some "<target>" then r
    else match p.flag with
      | some f =>
        if f = "-oX" ∨ f = "-oN" ∨ f = "-oA" then
          ([Tok.s f, Tok.s outputBase] ++ r.1, true)
        else (emitNmapStyle f p.value p.requiresValue ++ r.1, r.2)
      | Option.none => r

/-- `build_nmap_command` (tool_runner.py lines 142-176). -/
def build_nmap_command (target : String) (ps : List Param)
    (scanId toolName : String) : List Tok :=
  let outputBase := "/app/outputs/" ++ scanId ++ "/" ++ toolName ++ "/nmap_scan"
  let r := nmapLoop outputBase ps
  let cmd := Tok.s "nmap" :: r.1
  let cmd := if r.2 = true then cmd
             else cmd ++ [Tok.s "-oX", Tok.s (outputBase ++ ".xml")]
  cmd ++ [Tok.s target]

/-- Loop body of `build_masscan_command` (tool_runner.py lines 189-197):
every parameter goes through the loose emission, with no flag guard. -/
def masscanLoop : List Param → List Tok
  | [] => []
  | p :: rest => emitLoose p.flag p.value ++ masscanLoop rest

/-- `build_masscan_command` (tool_runner.py lines 178-206).  The port
check unions the attribute-style and mapping-style passes of the source,
which together inspect every parameter once. -/
def build_masscan_command (target : String) (ps : List Param)
    (scanId toolName : String) : List Tok :=
  let outputBase := "/app/outputs/" ++ scanId ++ "/" ++ toolName ++ "/masscan_scan.json"
  let portsSpecified := ps.any
    (fun p => decide (p.flag = some "-p" ∨ p.flag = some "--ports"))
  let cmd := Tok.s "masscan" :: masscanLoop ps
  let cmd := if portsSpecified = true then cmd
             else cmd ++ [Tok.s "-p", Tok.s "1-1000"]
  cmd ++ [Tok.s "-oJ", Tok.s outputBase] ++ [Tok.s target]

/-- Loop body of `build_amass_command` (tool_runner.py lines 222-235). -/
def amassLoop (wordlist : String) : List Param → List Tok
  | [] => []
  | p :: rest =>
    let r := amassLoop wordlist rest
    if flagFalsy p.flag = true ∨ p.flag = some "enum" ∨ p.flag = some "intel"
        ∨ p.flag = some "-src" ∨ p.flag = some "-ip" then r
    else if p.flag = some "-rf" ∧ isTrueLike p.value = true then
      [Tok.s "-rf", Tok.s wordlist] ++ r
    else if p.flag ≠ some "-d" ∧ p.flag ≠ some "enum" then
      emitLoose p.flag p.value ++ r
    else r

/-- `build_amass_command` (tool_runner.py lines 208-240).  The binary,
subcommand and `-d target` lead the vector; the default `-o` pair is
appended unconditionally at the end. -/
def build_amass_command (target : String) (ps : List Param)
    (scanId toolName : String) : List Tok :=
  let outputFile := "/app/outputs/" ++ scanId ++ "/" ++ toolName ++ "/amass_scan.txt"
  [Tok.s "amass", Tok.s "enum", Tok.s "-d", Tok.s target]
    ++ amassLoop "/app/wordlists/subdomains-top1million-5000.txt" ps
    ++ [Tok.s "-o", Tok.s outputFile]

/-- `build_subfinder_command` (tool_runner.py lines 242-284).  The second
parameter loop of the source unpacks a three-element tuple into two
targets (`flag, value = param.flag, param.value, getattr(...)`), which
raises `ValueError` on its first iteration for any non-empty parameter
list in either access form; the partial command built by the first loop
is discarded by the propagating exception.  Only the empty list reaches
the return statement, with `domain_flag_used` still false, so the vector
is the binary, `-silent`, `-d target` and the default `-oJ` pair. -/
def build_subfinder_command (target : String) (ps : List Param)
    (scanId toolName : String) : Except String (List Tok) :=
  let outputFile := "/app/outputs/" ++ scanId ++ "/" ++ toolName ++ "/subfinder_scan.json"
  match ps with
  | [] =>
    Except.ok ([Tok.s "subfinder", Tok.s "-silent"]
      ++ [Tok.s "-d", Tok.s target] ++ [Tok.s "-oJ", Tok.s outputFile])
  | _ :: _ => Except.error "ValueError: too many values to unpack (expected 2)"

/-- Loop body of `build_theharvester_command` (tool_runner.py lines
296-304): parameters whose flag is `-d` or `-f` are skipped (a missing
flag passes the check and is emitted verbatim). -/
def theharvesterLoop : List Param → List Tok
  | [] => []
  | p :: rest =>
    (if p.flag ≠ some "-d" ∧ p.flag ≠ some "-f" then emitLoose p.flag p.value
     else []) ++ theharvesterLoop rest

/-- `build_theharvester_command` (tool_runner.py lines 286-308). -/
def build_theharvester_command (target : String) (ps : List Param)
    (scanId toolName : String) : List Tok :=
  let outputFile := "/app/outputs/" ++ scanId ++ "/" ++ toolName ++ "/theharvester_scan.html"
  [Tok.s "theharvester", Tok.s "-d", Tok.s target]
    ++ theharvesterLoop ps ++ [Tok.s "-f", Tok.s outputFile]

/-- The default recon-ng workspace name (tool_runner.py line 321):
`target.replace(".", "_") + "_" + scan_id`. -/
def reconDefaultWorkspace (target scanId : String) : String :=
  dotToUnderscore target ++ "_" ++ scanId

/-- The workspace the recon-ng builder settles on (tool_runner.py lines
321-328): the first `--workspace` parameter with a truthy value wins,
otherwise the default.  The raw parameter value is kept because the
source assigns it without conversion. -/
def reconWorkspace (target : String) (ps : List Param) (scanId : String) : PyVal :=
  match ps with
  | [] => PyVal.str (reconDefaultWorkspace target scanId)
  | p :: rest =>
    if p.flag = some "--workspace" ∧ pyTruthy p.value = true then p.value
    else reconWorkspace target rest scanId

/-- `build_recon_ng_command` (tool_runner.py lines 310-349).  The builder
renders a template into a workflow script file; the returned vector only
names the script path, so the template text never reaches the vector.
Template absence raises the "template file not found" ValueError; a
truthy non-string workspace value would make `str.replace` raise, which
the source converts into the "Failed to create recon-ng script" error.
Whether the template exists is passed in as an explicit argument. -/
def build_recon_ng_command (target : String) (ps : List Param)
    (scanId toolName : String) (templateExists : Bool) : Except String (List Tok) :=
  let scriptPath := "/app/outputs/" ++ scanId ++ "/" ++ toolName ++ "/workflow.rc"
  if templateExists = false then Except.error "Recon-ng template file not found."
  else match reconWorkspace target ps scanId with
    | PyVal.str _ => Except.ok [Tok.s "recon-ng", Tok.s "-r", Tok.s scriptPath]
    | _ => Except.error "Failed to create recon-ng script: replace expected a string"

/-- The first parameter whose flag is the `mode` sentinel determines the
gobuster mode; `None` when there is none (tool_runner.py line 359). -/
def findMode : List Param → PyVal
  | [] => PyVal.none
  | p :: rest => if p.flag = some "mode" then p.value else findMode rest

/-- The `-u`/`-d` branch of the gobuster loop (tool_runner.py lines
379-390).  In dir/vhost mode the raw value (or the target when the value
is falsy) is URL-prefixed; in any other mode the raw value object is
appended after `-d`.  A truthy non-string value would raise in Python at
`startswith`; it is modelled through its string form. -/
def gobusterTargetToks (target : String) (mode : PyVal) (v : PyVal) : List Tok :=
  if mode = PyVal.str "dir" ∨ mode = PyVal.str "vhost" then
    [Tok.s "-u", Tok.s (urlOf (if pyTruthy v = true then pyStr v else target))]
  else
    [Tok.s "-d", if pyTruthy v = true then tokOfVal v else Tok.s target]

/-- Loop body of `build_gobuster_command` (tool_runner.py lines 363-395);
the boolean records whether a `-u`/`-d` parameter set the target. -/
def gobusterLoop (target : String) (mode : PyVal) (outputBase wordlist : String) :
    List Param → List Tok × Bool
  | [] => ([], false)
  | p :: rest =>
    let r := gobusterLoop target mode outputBase wordlist rest
    if flagFalsy p.flag = true ∨ p.flag = some "mode" then r
    else match p.flag with
      | some f =>
        if f = "-w" then
          ((if isTrueLike p.value = true then [Tok.s "-w", Tok.s wordlist] else [])
            ++ r.1, r.2)
        else if f = "-o" then
          ([Tok.s "-o", Tok.s (outputBase ++ ".txt")] ++ r.1, r.2)
        else if f = "-u" ∨ f = "-d" then
          (gobusterTargetToks target mode p.value ++ r.1, true)
        else (emitStrFilter f p.value ++ r.1, r.2)
      | Option.none => r

/-- `build_gobuster_command` (tool_runner.py lines 351-413).  The raw
mode value is appended as the second token, `None` included.  The
trailing defaults check membership in the accumulated vector. -/
def build_gobuster_command (target : String) (ps : List Param)
    (scanId toolName : String) : List Tok :=
  let outputBase := "/app/outputs/" ++ scanId ++ "/" ++ toolName ++ "/gobuster_scan"
  let wordlist := "/app/wordlists/common.txt"
  let mode := findMode ps
  let r := gobusterLoop target mode outputBase wordlist ps
  let cmd := Tok.s "gobuster" :: tokOfVal mode :: r.1
  let cmd := if r.2 = true then cmd
    else if mode = PyVal.str "dir" ∨ mode = PyVal.str "vhost" then
      cmd ++ [Tok.s "-u", Tok.s (urlOf target)]
    else if mode = PyVal.str "dns" then cmd ++ [Tok.s "-d", Tok.s target]
    else cmd
  let cmd := if (mode = PyVal.str "dir" ∨ mode = PyVal.str "vhost")
      ∧ Tok.s "-w" ∉ cmd then cmd ++ [Tok.s "-w", Tok.s wordlist] else cmd
  if Tok.s "-o" ∉ cmd then cmd ++ [Tok.s "-o", Tok.s (outputBase ++ ".txt")] else cmd

/-- Loop body of `build_dirsearch_command` (tool_runner.py lines 424-451). -/
def dirsearchLoop (target outputBase wordlist : String) :
    List Param → List Tok × Bool
  | [] => ([], false)
  | p :: rest =>
    let r := dirsearchLoop target outputBase wordlist rest
    if flagFalsy p.flag = true then r
    else match p.flag with
      | some f =>
        if f = "-w" then
          ((if isTrueLike p.value = true then [Tok.s "-w", Tok.s wordlist] else [])
            ++ r.1, r.2)
        else if f = "-o" then
          ([Tok.s "-o", Tok.s (outputBase ++ ".txt")] ++ r.1, r.2)
        else if f = "-u" then
          ([Tok.s "-u",
            Tok.s (urlOf (if pyTruthy p.value = true then pyStr p.value else target))]
            ++ r.1, true)
        else (emitStrFilter f p.value ++ r.1, r.2)
      | Option.none => r

/-- `build_dirsearch_command` (tool_runner.py lines 415-466). -/
def build_dirsearch_command (target : String) (ps : List Param)
    (scanId toolName : String) : List Tok :=
  let outputBase := "/app/outputs/" ++ scanId ++ "/" ++ toolName ++ "/dirsearch_scan"
  let wordlist := "/app/wordlists/directory-list-2.3-small.txt"
  let r := dirsearchLoop target outputBase wordlist ps
  let cmd := Tok.s "dirsearch" :: r.1
  let cmd := if r.2 = true then cmd else cmd ++ [Tok.s "-u", Tok.s (urlOf target)]
  let cmd := if Tok.s "-w" ∉ cmd then cmd ++ [Tok.s "-w", Tok.s wordlist] else cmd
  if Tok.s "-o" ∉ cmd then cmd ++ [Tok.s "-o", Tok.s (outputBase ++ ".txt")] else cmd

/-- Loop body of `build_whatweb_command` (tool_runner.py lines 476-491);
the boolean records whether a `--log-brief` parameter was seen. -/
def whatwebLoop (outputBase : String) : List Param → List Tok × Bool
  | [] => ([], false)
  | p :: rest =>
    let r := whatwebLoop outputBase rest
    if flagFalsy p.flag = true ∨ p.flag = some "<target>" then r
    else match p.flag with
      | some f =>
        if f = "--log-brief" then
          ([Tok.s "--log-brief", Tok.s (outputBase ++ ".txt")] ++ r.1, true)
        else (emitStrFilter f p.value ++ r.1, r.2)
      | Option.none => r

/-- `build_whatweb_command` (tool_runner.py lines 468-502). -/
def build_whatweb_command (target : String) (ps : List Param)
    (scanId toolName : String) : List Tok :=
  let outputBase := "/app/outputs/" ++ scanId ++ "/" ++ toolName ++ "/whatweb_scan"
  let r := whatwebLoop outputBase ps
  let cmd := Tok.s "whatweb" :: r.1
  let cmd := if r.2 = true then cmd
             else cmd ++ [Tok.s "--log-brief", Tok.s (outputBase ++ ".txt")]
  cmd ++ [Tok.s (urlOf target)]

/-- Loop body of `build_dnsenum_command` (tool_runner.py lines 518-534). -/
def dnsenumLoop (wordlist : String) : List Param → List Tok
  | [] => []
  | p :: rest =>
    let r := dnsenumLoop wordlist rest
    if flagFalsy p.flag = true then r
    else match p.flag with
      | some f =>
        if f = "--file" ∧ isTrueLike3 p.value = true then
          [Tok.s "-f", Tok.s wordlist] ++ r
        else if f ≠ "-o" ∧ f ≠ "--file" ∧ f ≠ "<domain>" then
          emitDnsenum f p.value ++ r
        else r
      | Option.none => r

/-- `build_dnsenum_command` (tool_runner.py lines 505-540).  The default
`-o` pair is appended unconditionally, and the target domain is appended
as the very last token, after all options. -/
def build_dnsenum_command (target : String) (ps : List Param)
    (scanId toolName : String) : List Tok :=
  let outputFile := "/app/outputs/" ++ scanId ++ "/" ++ toolName ++ "/dnsenum_scan.xml"
  (Tok.s "dnsenum" :: dnsenumLoop "/app/wordlists/subdomains-top1million-5000.txt" ps
    ++ [Tok.s "-o", Tok.s outputFile]) ++ [Tok.s target]

/-- The error markers of the default success family (tool_runner.py line 100). -/
def errorMarkers : List String :=
  ["invalid module", "invalid option", "invalid command", "error", "traceback",
   "no such file", "not found", "[!]", "fail", "module not found"]

/-- The benign dnsenum stderr markers (tool_runner.py line 86). -/
def benignMarkers : List String :=
  ["query failed", "noerror", "lame server"]

/-- The fatal dnsenum marker (tool_runner.py line 90), written without a
literal apostrophe character. -/
def cantLocateMarker : String :=
  "can" ++ String.singleton (Char.ofNat 39) ++ "t locate"

/-- Success rule of the recon-ng / dirsearch / theharvester family
(tool_runner.py lines 79-81). -/
def familyASuccess (rc : Int) (stderr : String) : Bool :=
  if rc = 0 ∧ hasSub (pyLower stderr) "error" = false
      ∧ hasSub (pyLower stderr) "traceback" = false then true
  else false

/-- Success rule for dnsenum (tool_runner.py lines 82-95). -/
def dnsenumSuccess (rc : Int) (stderr : String) : Bool :=
  let sl := pyLower stderr
  if hasSub sl cantLocateMarker = false then
    if rc = 0 then true
    else if rc ≠ 0 ∧ benignMarkers.any (fun m => hasSub sl m) = true then true
    else false
  else false

/-- Success rule of the default family (tool_runner.py lines 97-102). -/
def defaultSuccess (rc : Int) (stdout stderr : String) : Bool :=
  let so := pyLower stdout
  let se := pyLower stderr
  let foundError := errorMarkers.any (fun m => hasSub so m)
    || errorMarkers.any (fun m => hasSub se m)
  if rc = 0 ∧ foundError = false then true else false

/-- The per-tool-family dispatch of `ToolRunner.execute_command`
(tool_runner.py lines 76-102). -/
def classifySuccess (toolName : String) (rc : Int) (stdout stderr : String) : Bool :=
  let t := pyLower toolName
  if t = "recon-ng" ∨ t = "dirsearch" ∨ t = "theharvester" then
    familyASuccess rc stderr
  else if t = "dnsenum" then dnsenumSuccess rc stderr
  else defaultSuccess rc stdout stderr

/-- The structured result of one execution (models.py ToolOutput). -/
structure ToolOutput where
  tool_name : String
  command : List Tok
  return_code : Int
  stdout : String
  stderr : String
  output_file_paths : List String
  success : Bool
deriving DecidableEq, Repr

/-- What the spawned process did: ran to completion with an exit code and
captured streams, or hit the wall-clock timeout. -/
inductive ProcOutcome
  | finished (rc : Int) (stdout stderr : String)
  | timedOut
deriving DecidableEq, Repr

/-- `ToolRunner.execute_command` (tool_runner.py lines 29-138).  The
subprocess outcome and the post-run listing of regular files in the tool
output directory are explicit arguments.  On completion the stdout and
stderr capture files are always reported first, followed by every other
listed file; the returned streams are truncated to their last 2000
characters.  On timeout the synthetic message is both written to the
stderr capture file and returned, and the result names only that file:
the directory listing is never consulted on that path. -/
def execute_command (command : List Tok) (scanId toolName : String)
    (timeout : Nat) (outcome : ProcOutcome) (listing : List String) : ToolOutput :=
  let outputDir := "/app/outputs/" ++ scanId ++ "/" ++ toolName
  let stdoutFile := outputDir ++ "/output.stdout"
  let stderrFile := outputDir ++ "/output.stderr"
  match outcome with
  | ProcOutcome.finished rc out err =>
    let extra := (listing.filter
        (fun f => !(f == "output.stdout") && !(f == "output.stderr"))).map
      (fun f => outputDir ++ "/" ++ f)
    { tool_name := toolName
      command := command
      return_code := rc
      stdout := lastChars 2000 out
      stderr := lastChars 2000 err
      output_file_paths := [stdoutFile, stderrFile] ++ extra
      success := classifySuccess toolName rc out err }
  | ProcOutcome.timedOut =>
    let errMsg := "Command timed out after " ++ toString timeout ++ " seconds."
    { tool_name := toolName
      command := command
      return_code := -1
      stdout := ""
      stderr := errMsg
      output_file_paths := [stderrFile]
      success := false }

/-- What a post-processor did: the recorded upload results, in order, and
whether the local output directory was deleted. -/
structure PostResult where
  uploads : List Bool
  deleted : Bool
deriving DecidableEq, Repr

/-- `post_process_masscan` (post_processing.py lines 43-73).  `fs` tells
which paths exist; `upload` is the outcome of `upload_file_to_gcs` for a
given local path and object path.  A missing JSON records one failure. -/
def post_process_masscan (fs : String → Bool) (upload : String → String → Bool)
    (scanId toolName outputDir : String) : PostResult :=
  let jsonFile := outputDir ++ "/masscan_scan.json"
  let us :=
    if fs jsonFile = true then
      [upload jsonFile ("data/" ++ scanId ++ "/recon/" ++ toolName ++ "/llm/masscan_scan.json"),
       upload jsonFile ("data/" ++ scanId ++ "/recon/" ++ toolName ++ "/review/masscan_scan.json")]
    else [false]
  { uploads := us, deleted := us.all id }

/-- `post_process_theharvester` (post_processing.py lines 133-166).  A
missing JSON result only logs a warning and records nothing; a missing
stdout capture likewise.  The directory is deleted when every recorded
upload succeeded and at least one was recorded. -/
def post_process_theharvester (fs : String → Bool) (upload : String → String → Bool)
    (scanId toolName outputDir : String) : PostResult :=
  let jsonFile := outputDir ++ "/theharvester_scan.json"
  let stdoutFile := outputDir ++ "/output.stdout"
  let us1 :=
    if fs jsonFile = true then
      [upload jsonFile ("data/" ++ scanId ++ "/recon/" ++ toolName ++ "/llm/theharvester_scan.json"),
       upload jsonFile ("data/" ++ scanId ++ "/recon/" ++ toolName ++ "/review/theharvester_scan.json")]
    else []
  let us2 :=
    if fs stdoutFile = true then
      [upload stdoutFile ("data/" ++ scanId ++ "/recon/" ++ toolName ++ "/review/output.stdout")]
    else []
  let us := us1 ++ us2
  { uploads := us, deleted := us.all id && !us.isEmpty }

lemma strData_append (a b : String) : (a ++ b).data = a.data ++ b.data := by
  cases a; cases b; rfl

lemma strLength_append (a b : String) : (a ++ b).length = a.length + b.length := by
  cases a; cases b; simp [String.length, String.append]

lemma masscanPath_ne (s n : String) :
    "/app/outputs/" ++ s ++ "/" ++ n ++ "/masscan_scan.json" ≠ "-oJ" := by
  intro h
  have hl := congrArg String.length h
  rw [strLength_append, strLength_append, strLength_append, strLength_append] at hl
  have e1 : ("/app/outputs/" : String).length = 13 := rfl
  have e2 : ("/" : String).length = 1 := rfl
  have e3 : ("/masscan_scan.json" : String).length = 18 := rfl
  have e4 : ("-oJ" : String).length = 3 := rfl
  rw [e1, e2, e3, e4] at hl
  omega

lemma amassPath_ne (s n : String) :
    "/app/outputs/" ++ s ++ "/" ++ n ++ "/amass_scan.txt" ≠ "-o" := by
  intro h
  have hl := congrArg String.length h
  rw [strLength_append, strLength_append, strLength_append, strLength_append] at hl
  have e1 : ("/app/outputs/" : String).length = 13 := rfl
  have e2 : ("/" : String).length = 1 := rfl
  have e3 : ("/amass_scan.txt" : String).length = 15 := rfl
  have e4 : ("-o" : String).length = 2 := rfl
  rw [e1, e2, e3, e4] at hl
  omega

lemma timeoutMsg_ne_empty (timeout : Nat) :
    "Command timed out after " ++ toString timeout ++ " seconds." ≠ "" := by
  intro h
  have hl := congrArg String.length h
  rw [strLength_append, strLength_append] at hl
  have e1 : ("Command timed out after " : String).length = 24 := rfl
  have e2 : (" seconds." : String).length = 9 := rfl
  have e3 : ("" : String).length = 0 := rfl
  rw [e1, e2, e3] at hl
  omega

lemma countTok_append (l1 l2 : List Tok) (x : Tok) :
    countTok (l1 ++ l2) x = countTok l1 x + countTok l2 x := by
  induction l1 with
  | nil => simp [countTok]
  | cons a l ih => simp [countTok, ih]; omega

lemma tokOf_ne_s {fl : Option String} {f : String} (h : fl ≠ some f) :
    tokOf fl ≠ Tok.s f := by
  cases fl with
  | none => simp [tokOf]
  | some g =>
    simp only [tokOf, ne_eq, Tok.s.injEq]
    intro hc
    exact h (by rw [hc])

lemma s_ne_s {a b : String} (h : a ≠ b) : Tok.s a ≠ Tok.s b := by
  simp only [ne_eq, Tok.s.injEq]
  exact h

lemma countTok_emitLoose {fl : Option String} {v : PyVal} {x : Tok}
    (hf : tokOf fl ≠ x) (hv : Tok.s (pyStr v) ≠ x) :
    countTok (emitLoose fl v) x = 0 := by
  simp only [emitLoose]
  repeat' split
  all_goals simp [countTok, hf, hv]

lemma countTok_masscanLoop {ps : List Param} {x : Tok}
    (h : ∀ p ∈ ps, tokOf p.flag ≠ x ∧ Tok.s (pyStr p.value) ≠ x) :
    countTok (masscanLoop ps) x = 0 := by
  induction ps with
  | nil => rfl
  | cons p rest ih =>
    simp only [masscanLoop, countTok_append]
    rw [countTok_emitLoose (h p (by simp)).1 (h p (by simp)).2,
      ih (fun q hq => h q (by simp [hq]))]

lemma countTok_amassLoop {ps : List Param} {x : Tok}
    (h : ∀ p ∈ ps, tokOf p.flag ≠ x ∧ Tok.s (pyStr p.value) ≠ x)
    (hrf : Tok.s "-rf" ≠ x)
    (hwl : Tok.s "/app/wordlists/subdomains-top1million-5000.txt" ≠ x) :
    countTok (amassLoop "/app/wordlists/subdomains-top1million-5000.txt" ps) x = 0 := by
  induction ps with
  | nil => rfl
  | cons p rest ih =>
    have hp := h p (by simp)
    have ihr := ih (fun q hq => h q (by simp [hq]))
    simp only [amassLoop]
    repeat' split
    all_goals simp [countTok_append, countTok, hrf, hwl, ihr,
      countTok_emitLoose hp.1 hp.2]

/-- Claim C1: for the default family (nmap, masscan, amass, subfinder,
gobuster, whatweb) the engine reports success exactly when the return
code is 0 and no error marker occurs, case-insensitively, in stdout or
stderr; concretely, return code 0 with empty streams succeeds and return
code 0 with stderr "Error: invalid option" fails. -/
theorem C1_default_family_success (rc : Int) (out err : String) :
    (classifySuccess "nmap" rc out err = true ↔
      rc = 0 ∧ ∀ m ∈ errorMarkers,
        hasSub (pyLower out) m = false ∧ hasSub (pyLower err) m = false)
    ∧ classifySuccess "masscan" rc out err = classifySuccess "nmap" rc out err
    ∧ classifySuccess "amass" rc out err = classifySuccess "nmap" rc out err
    ∧ classifySuccess "subfinder" rc out err = classifySuccess "nmap" rc out err
    ∧ classifySuccess "gobuster" rc out err = classifySuccess "nmap" rc out err
    ∧ classifySuccess "whatweb" rc out err = classifySuccess "nmap" rc out err
    ∧ classifySuccess "nmap" 0 "" "" = true
    ∧ classifySuccess "nmap" 0 "" "Error: invalid option" = false := by
  refine ⟨?_, rfl, rfl, rfl, rfl, rfl, rfl, rfl⟩
  have h : classifySuccess "nmap" rc out err = defaultSuccess rc out err := rfl
  rw [h]
  simp only [defaultSuccess]
  split
  · rename_i hc
    obtain ⟨h0, hf⟩ := hc
    rw [Bool.or_eq_false_iff] at hf
    obtain ⟨h1, h2⟩ := hf
    rw [List.any_eq_false] at h1 h2
    simp only [h0, true_and, true_iff, eq_self_iff_true]
    intro m hm
    exact ⟨Bool.eq_false_iff.mpr (h1 m hm), Bool.eq_false_iff.mpr (h2 m hm)⟩
  · rename_i hc
    constructor
    · intro hh; exact absurd hh (by simp)
    · intro ⟨h0, hall⟩
      exact absurd ⟨h0, by
        rw [Bool.or_eq_false_iff]
        constructor <;> rw [List.any_eq_false] <;> intro m hm <;>
          simp [(hall m hm).1, (hall m hm).2]⟩ hc

/-- Instance of C1 at a concrete input. -/
theorem C1_default_family_success_inst : classifySuccess "nmap" 0 "" "" = true :=
  ((C1_default_family_success 0 "" "").1).mpr ⟨rfl, by decide⟩

/-- Claim C4: dnsenum classification — a stderr containing the fatal
marker fails unconditionally; otherwise success means return code 0 or a
non-zero return code with a benign marker in stderr; concretely, return
code 1 with a "query failed" stderr succeeds and return code 1 with a
stderr naming the missing Net::DNS module fails. -/
theorem C4_dnsenum_success (rc : Int) (out err : String) :
    (classifySuccess "dnsenum" rc out err = true ↔
      hasSub (pyLower err) cantLocateMarker = false ∧
        (rc = 0 ∨ (rc ≠ 0 ∧ ∃ m ∈ benignMarkers, hasSub (pyLower err) m = true)))
    ∧ classifySuccess "dnsenum" 1 "" "query failed for x" = true
    ∧ classifySuccess "dnsenum" 1 ""
        ("can" ++ String.singleton (Char.ofNat 39) ++ "t locate Net::DNS") = false := by
  refine ⟨?_, rfl, rfl⟩
  have h : classifySuccess "dnsenum" rc out err = dnsenumSuccess rc err := rfl
  rw [h]
  simp only [dnsenumSuccess]
  split
  · rename_i hcl
    split
    · rename_i h0
      simp [hcl, h0]
    · rename_i h0
      split
      · rename_i hb
        obtain ⟨hne, hany⟩ := hb
        rw [List.any_eq_true] at hany
        simp only [true_iff, eq_self_iff_true]
        refine ⟨hcl, Or.inr ⟨hne, ?_⟩⟩
        obtain ⟨m, hm, hp⟩ := hany
        exact ⟨m, hm, hp⟩
      · rename_i hb
        constructor
        · intro hh; exact absurd hh (by simp)
        · intro ⟨_, hor⟩
          rcases hor with h0' | ⟨hne, m, hm, hp⟩
          · exact absurd h0' h0
          · exact absurd ⟨hne, List.any_eq_true.mpr ⟨m, hm, hp⟩⟩ hb
  · rename_i hcl
    constructor
    · intro hh; exact absurd hh (by simp)
    · intro ⟨hcl', _⟩; exact absurd hcl' hcl

/-- Instance of C4 at a concrete input. -/
theorem C4_dnsenum_success_inst : classifySuccess "dnsenum" 1 "" "query failed for x" = true :=
  (C4_dnsenum_success 1 "" "query failed for x").2.1

/-- Counterexample to claim C5 as stated: on timeout the result does not
include the partial artifact the tool had already written to its output
directory (here `partial.xml` is present in the post-run listing), only
the synthetic stderr capture file. -/
theorem C5_cex_timeout_omits_partial_artifact :
    (execute_command [] "s1" "nmap" 5 ProcOutcome.timedOut
        ["partial.xml"]).output_file_paths = ["/app/outputs/s1/nmap/output.stderr"]
    ∧ "/app/outputs/s1/nmap/partial.xml" ∉
        (execute_command [] "s1" "nmap" 5 ProcOutcome.timedOut
          ["partial.xml"]).output_file_paths := by
  exact ⟨rfl, by decide⟩

/-- Claim C5 as amended: on timeout the engine returns (never raises) a
result with return code -1, success false, a non-empty synthetic stderr
describing the timeout, and artifact paths consisting solely of the
synthetic stderr capture file — files already written to the output
directory are not enumerated on this path. -/
theorem C5_timeout_result (command : List Tok) (s n : String)
    (timeout : Nat) (listing : List String) :
    (execute_command command s n timeout ProcOutcome.timedOut listing).return_code = -1
    ∧ (execute_command command s n timeout ProcOutcome.timedOut listing).success = false
    ∧ (execute_command command s n timeout ProcOutcome.timedOut listing).stderr ≠ ""
    ∧ (execute_command command s n timeout ProcOutcome.timedOut listing).output_file_paths
        = ["/app/outputs/" ++ s ++ "/" ++ n ++ "/output.stderr"] := by
  exact ⟨rfl, rfl, timeoutMsg_ne_empty timeout, rfl⟩

/-- Instance of C5 at a concrete input. -/
theorem C5_timeout_result_inst :
    (execute_command [] "s1" "nmap" 5 ProcOutcome.timedOut ["partial.json"]).return_code = -1
    ∧ (execute_command [] "s1" "nmap" 5 ProcOutcome.timedOut ["partial.json"]).success = false :=
  ⟨(C5_timeout_result [] "s1" "nmap" 5 ["partial.json"]).1,
   (C5_timeout_result [] "s1" "nmap" 5 ["partial.json"]).2.1⟩

/-- Claim C10: the subfinder builder raises the tuple-unpacking
ValueError of its second parameter loop for every non-empty parameter
list, and only the empty parameter list yields a command vector. -/
theorem C10_subfinder_unpack_error :
    (∀ (t : String) (p : Param) (ps : List Param) (s n : String),
      build_subfinder_command t (p :: ps) s n =
        Except.error "ValueError: too many values to unpack (expected 2)")
    ∧ (∀ (t s n : String),
      build_subfinder_command t [] s n =
        Except.ok [Tok.s "subfinder", Tok.s "-silent", Tok.s "-d", Tok.s t,
          Tok.s "-oJ", Tok.s ("/app/outputs/" ++ s ++ "/" ++ n ++ "/subfinder_scan.json")]) :=
  ⟨fun _ _ _ _ _ => rfl, fun _ _ _ => rfl⟩

/-- Counterexample to claim C2 as stated: a caller-supplied `-o`
parameter on amass passes through the generic loop, and the default `-o`
pair is still appended, so the vector holds two output flags. -/
theorem C2_cex_amass_two_output_flags :
    countTok (build_amass_command "example.com"
      [⟨some "-o", PyVal.str "x", false⟩] "s1" "amass") (Tok.s "-o") = 2 := by
  decide

/-- Claim C2 as amended: the masscan and amass builders unconditionally
append exactly one default output flag paired with the canonical output
filename inside the tool directory; when no parameter mentions the output
flag (as its flag or as the string form of its value) and the target is
not the flag string, the final vector holds exactly one occurrence of the
output flag.  A caller-supplied output flag is not deduplicated (see the
counterexample). -/
theorem C2_single_default_output_flag (t : String) (ps : List Param) (s n : String) :
    ((∀ p ∈ ps, p.flag ≠ some "-oJ" ∧ pyStr p.value ≠ "-oJ") → t ≠ "-oJ" →
      countTok (build_masscan_command t ps s n) (Tok.s "-oJ") = 1)
    ∧ ((∀ p ∈ ps, p.flag ≠ some "-o" ∧ pyStr p.value ≠ "-o") → t ≠ "-o" →
      countTok (build_amass_command t ps s n) (Tok.s "-o") = 1) := by
  constructor
  · intro h ht
    have hloop : countTok (masscanLoop ps) (Tok.s "-oJ") = 0 :=
      countTok_masscanLoop (fun p hp => ⟨tokOf_ne_s (h p hp).1, s_ne_s (h p hp).2⟩)
    simp only [build_masscan_command]
    split
    all_goals simp [countTok_append, countTok, hloop, s_ne_s ht,
      s_ne_s (masscanPath_ne s n)]
  · intro h ht
    have hloop : countTok
        (amassLoop "/app/wordlists/subdomains-top1million-5000.txt" ps) (Tok.s "-o") = 0 :=
      countTok_amassLoop (fun p hp => ⟨tokOf_ne_s (h p hp).1, s_ne_s (h p hp).2⟩)
        (by decide) (by decide)
    simp only [build_amass_command]
    simp [countTok_append, countTok, hloop, s_ne_s ht, s_ne_s (amassPath_ne s n)]

/-- Instance of C2 (amended) at a concrete input. -/
theorem C2_single_default_output_flag_inst :
    countTok (build_masscan_command "10.0.0.1"
        [⟨some "--rate", PyVal.str "100", true⟩] "s1" "masscan") (Tok.s "-oJ") = 1
    ∧ countTok (build_amass_command "example.com" [] "s1" "amass") (Tok.s "-o") = 1 :=
  ⟨(C2_single_default_output_flag "10.0.0.1"
      [⟨some "--rate", PyVal.str "100", true⟩] "s1" "masscan").1
      (by intro p hp; simp at hp; rw [hp]; exact ⟨by decide, by decide⟩) (by decide),
   (C2_single_default_output_flag "example.com" [] "s1" "amass").2
      (by intro p hp; simp at hp) (by decide)⟩

/-- Counterexample to claim C3 as stated: the theHarvester policy does
not treat its missing JSON result as a failed upload.  With the JSON
absent, the stdout capture present and its upload succeeding, the local
directory is deleted even though an expected source file was missing. -/
theorem C3_cex_theharvester_deletes_without_json :
    (post_process_theharvester
      (fun f => f == "/app/outputs/s1/theharvester/output.stdout")
      (fun _ _ => true) "s1" "theharvester" "/app/outputs/s1/theharvester").deleted = true
    ∧ (fun f => f == "/app/outputs/s1/theharvester/output.stdout")
        "/app/outputs/s1/theharvester/theharvester_scan.json" = false := by
  decide

/-- Claim C3 as amended: the output directory is deleted only when every
upload the policy actually recorded succeeded; the masscan policy records
a failure for its missing JSON source, so a missing JSON blocks deletion
there, while the theHarvester policy merely skips uploads for missing
files and deletes whenever its recorded uploads are non-empty and all
succeeded. -/
theorem C3_cleanup_requires_recorded_successes (fs : String → Bool)
    (up : String → String → Bool) (s t d : String) :
    ((post_process_masscan fs up s t d).deleted = true →
      fs (d ++ "/masscan_scan.json") = true ∧
        ∀ b ∈ (post_process_masscan fs up s t d).uploads, b = true)
    ∧ ((post_process_theharvester fs up s t d).deleted = true →
      (post_process_theharvester fs up s t d).uploads ≠ [] ∧
        ∀ b ∈ (post_process_theharvester fs up s t d).uploads, b = true) := by
  constructor
  · intro hdel
    simp only [post_process_masscan] at hdel ⊢
    revert hdel
    split
    · rename_i hfs
      intro hdel
      rw [List.all_eq_true] at hdel
      exact ⟨hfs, fun b hb => hdel b hb⟩
    · intro hdel
      simp [List.all] at hdel
  · intro hdel
    simp only [post_process_theharvester] at hdel ⊢
    rw [Bool.and_eq_true] at hdel
    obtain ⟨h1, h2⟩ := hdel
    constructor
    · intro hnil
      rw [hnil] at h2
      simp at h2
    · rw [List.all_eq_true] at h1
      exact fun b hb => h1 b hb

/-- Instance of C3 (amended) at a concrete input. -/
theorem C3_cleanup_requires_recorded_successes_inst :
    (fun _ : String => true) ("/o" ++ "/masscan_scan.json") = true
    ∧ ∀ b ∈ (post_process_masscan (fun _ => true) (fun _ _ => true)
        "s1" "masscan" "/o").uploads, b = true := by
  exact (C3_cleanup_requires_recorded_successes (fun _ => true) (fun _ _ => true)
    "s1" "masscan" "/o").1 rfl

/-- Counterexample to claim C6 as stated: the dnsenum builder does not
place the target near the front via a domain flag — it appends the
target as the very last token and never emits `-d`; and the theharvester
builder (not in the claimed exception set) does not end with the target
but with its output file pair. -/
theorem C6_cex_dnsenum_target_last :
    (build_dnsenum_command "example.com" [] "s1" "dnsenum").getLast?
      = some (Tok.s "example.com")
    ∧ Tok.s "-d" ∉ build_dnsenum_command "example.com" [] "s1" "dnsenum"
    ∧ (build_theharvester_command "example.com" [] "s1" "theharvester").getLast?
      = some (Tok.s "/app/outputs/s1/theharvester/theharvester_scan.html") := by
  refine ⟨rfl, by decide, rfl⟩

/-- Claim C6 as amended: nmap, masscan and dnsenum append the raw target
as the final token and whatweb appends the URL-prefixed target last,
while amass and theharvester place the target via an explicit `-d` flag
near the front of the vector (positions 2-3 and 1-2 respectively). -/
theorem C6_target_placement (t : String) (ps : List Param) (s n : String) :
    (build_nmap_command t ps s n).getLast? = some (Tok.s t)
    ∧ (build_masscan_command t ps s n).getLast? = some (Tok.s t)
    ∧ (build_dnsenum_command t ps s n).getLast? = some (Tok.s t)
    ∧ (build_whatweb_command t ps s n).getLast? = some (Tok.s (urlOf t))
    ∧ (build_amass_command t ps s n).take 4
        = [Tok.s "amass", Tok.s "enum", Tok.s "-d", Tok.s t]
    ∧ (build_theharvester_command t ps s n).take 3
        = [Tok.s "theharvester", Tok.s "-d", Tok.s t] := by
  refine ⟨?_, ?_, ?_, ?_, ?_, ?_⟩
  · simp only [build_nmap_command]
    exact List.getLast?_concat _
  · simp only [build_masscan_command]
    exact List.getLast?_concat _
  · simp only [build_dnsenum_command]
    exact List.getLast?_concat _
  · simp only [build_whatweb_command]
    exact List.getLast?_concat _
  · simp only [build_amass_command]
    rfl
  · simp only [build_theharvester_command]
    rfl

/-- Instance of C6 at a concrete input. -/
theorem C6_target_placement_inst :
    (build_nmap_command "example.com" [] "s1" "nmap").getLast? = some (Tok.s "example.com") :=
  (C6_target_placement "example.com" [] "s1" "nmap").1

/-- Counterexample to claim C7 as stated: building gobuster with an
empty parameter list (no mode selector) yields a vector containing the
Python `None` object as its second token, so not every token is a
string. -/
theorem C7_cex_gobuster_none_token :
    Tok.none ∈ build_gobuster_command "example.com" [] "s1" "gobuster"
    ∧ (build_gobuster_command "example.com" [] "s1" "gobuster")[1]? = some Tok.none := by
  decide

/-- Claim C7 as amended: for every builder and parameter list the lead
token(s) are the tool binary — nmap, masscan, theharvester, gobuster,
dirsearch, whatweb and dnsenum start with their binary name, amass with
the composite `amass enum` — and subfinder (empty list, the only one it
accepts) and recon-ng (template present) return vectors led by their
binaries; gobuster, however, places the raw mode value at index 1, which
is the `None` token when no mode parameter is supplied (see the
counterexample), so the all-tokens-are-strings part of the claim fails. -/
theorem C7_lead_tokens (t : String) (ps : List Param) (s n : String) :
    (build_nmap_command t ps s n).head? = some (Tok.s "nmap")
    ∧ (build_masscan_command t ps s n).head? = some (Tok.s "masscan")
    ∧ (build_amass_command t ps s n).take 2 = [Tok.s "amass", Tok.s "enum"]
    ∧ (build_theharvester_command t ps s n).head? = some (Tok.s "theharvester")
    ∧ (build_gobuster_command t ps s n).head? = some (Tok.s "gobuster")
    ∧ (build_gobuster_command t ps s n)[1]? = some (tokOfVal (findMode ps))
    ∧ (build_dirsearch_command t ps s n).head? = some (Tok.s "dirsearch")
    ∧ (build_whatweb_command t ps s n).head? = some (Tok.s "whatweb")
    ∧ (build_dnsenum_command t ps s n).head? = some (Tok.s "dnsenum")
    ∧ (build_subfinder_command t [] s n).map List.head? = Except.ok (some (Tok.s "subfinder"))
    ∧ (build_recon_ng_command t [] s n true).map List.head?
        = Except.ok (some (Tok.s "recon-ng")) := by
  refine ⟨?_, ?_, rfl, rfl, ?_, ?_, ?_, ?_, rfl, rfl, rfl⟩
  · simp only [build_nmap_command]
    repeat' split
    all_goals simp [List.cons_append]
  · simp only [build_masscan_command]
    repeat' split
    all_goals simp [List.cons_append]
  · simp only [build_gobuster_command]
    repeat' split
    all_goals simp [List.cons_append]
  · simp only [build_gobuster_command]
    repeat' split
    all_goals simp [List.cons_append]
  · simp only [build_dirsearch_command]
    repeat' split
    all_goals simp [List.cons_append]
  · simp only [build_whatweb_command]
    repeat' split
    all_goals simp [List.cons_append]

/-- Instance of C7 at a concrete input. -/
theorem C7_lead_tokens_inst :
    (build_masscan_command "10.0.0.1" [] "s1" "masscan").head? = some (Tok.s "masscan") :=
  (C7_lead_tokens "10.0.0.1" [] "s1" "masscan").2.1

/-- Counterexample to claim C8 as stated: a parameter whose value is the
falsy Python `False` does contribute tokens — the nmap builder emits
`[-p, "False"]` for a value-requiring parameter with value `False`. -/
theorem C8_cex_false_value_emitted :
    build_nmap_command "example.com" [⟨some "-p", PyVal.bool false, true⟩] "s1" "nmap"
      = [Tok.s "nmap", Tok.s "-p", Tok.s "False", Tok.s "-oX",
         Tok.s "/app/outputs/s1/nmap/nmap_scan.xml", Tok.s "example.com"] := by
  decide

/-- Claim C8 as amended: a parameter with value `None` contributes no
tokens and a boolean-true (or "true") parameter contributes a bare flag,
but falsy non-`None` values are not suppressed uniformly — the nmap-style
emission stringifies any present value when `requiresValue` holds
(`False` becomes the token "False"), the masscan/amass-style emission
stringifies every value other than `None`/`True`/"true" (including
`False` and the empty string), and the gobuster/dirsearch/whatweb-style
emission drops values whose lowercased string form is "true", "1" or ""
yet still emits `False` as the token "False". -/
theorem C8_emission_rules :
    (∀ (f : String) (rv : Bool), emitNmapStyle f PyVal.none rv = [])
    ∧ (∀ (f : String) (v : PyVal), v ≠ PyVal.none →
        emitNmapStyle f v true = [Tok.s f, Tok.s (pyStr v)])
    ∧ (∀ f : String, emitNmapStyle f (PyVal.bool true) false = [Tok.s f]
        ∧ emitNmapStyle f (PyVal.str "true") false = [Tok.s f]
        ∧ emitNmapStyle f (PyVal.str "80") false = [])
    ∧ (∀ fl : Option String, emitLoose fl PyVal.none = [])
    ∧ (∀ fl : Option String, emitLoose fl (PyVal.bool true) = [tokOf fl]
        ∧ emitLoose fl (PyVal.str "true") = [tokOf fl])
    ∧ (∀ fl : Option String, emitLoose fl (PyVal.bool false) = [tokOf fl, Tok.s "False"]
        ∧ emitLoose fl (PyVal.str "") = [tokOf fl, Tok.s ""])
    ∧ (∀ f : String, emitStrFilter f PyVal.none = [])
    ∧ (∀ f : String, emitStrFilter f (PyVal.bool true) = [Tok.s f]
        ∧ emitStrFilter f (PyVal.bool false) = [Tok.s f, Tok.s "False"]
        ∧ emitStrFilter f (PyVal.str "") = []
        ∧ emitStrFilter f (PyVal.str "1") = []
        ∧ emitStrFilter f (PyVal.str "True") = []) := by
  refine ⟨fun f rv => ?_, fun f v hv => ?_, fun f => ⟨rfl, rfl, rfl⟩,
    fun fl => rfl, fun fl => ⟨rfl, rfl⟩, fun fl => ⟨rfl, rfl⟩,
    fun f => rfl, fun f => ⟨rfl, rfl, rfl, rfl, rfl⟩⟩
  · cases rv <;> rfl
  · cases v with
    | none => exact absurd rfl hv
    | str s => rfl
    | bool b => rfl

/-- Instance of C8 (amended) at a concrete input. -/
theorem C8_emission_rules_inst :
    PyVal.str "80" ≠ PyVal.none
    ∧ emitNmapStyle "-p" (PyVal.str "80") true = [Tok.s "-p", Tok.s "80"] :=
  ⟨by decide, C8_emission_rules.2.1 "-p" (PyVal.str "80") (by decide)⟩

/-- Claim C9: every builder is deterministic — identical
`(target, parameters, scan_id, tool_name)` inputs (and for recon-ng an
identical template situation) produce identical vectors — and the
default recon-ng workspace is the pure function
`target.replace(".", "_") + "_" + scan_id` of the target and scan id
alone. -/
theorem C9_builders_deterministic :
    (∀ (t1 t2 : String) (ps1 ps2 : List Param) (s1 s2 n1 n2 : String),
      t1 = t2 → ps1 = ps2 → s1 = s2 → n1 = n2 →
        build_nmap_command t1 ps1 s1 n1 = build_nmap_command t2 ps2 s2 n2
        ∧ build_masscan_command t1 ps1 s1 n1 = build_masscan_command t2 ps2 s2 n2
        ∧ build_amass_command t1 ps1 s1 n1 = build_amass_command t2 ps2 s2 n2
        ∧ build_subfinder_command t1 ps1 s1 n1 = build_subfinder_command t2 ps2 s2 n2
        ∧ build_theharvester_command t1 ps1 s1 n1 = build_theharvester_command t2 ps2 s2 n2
        ∧ build_gobuster_command t1 ps1 s1 n1 = build_gobuster_command t2 ps2 s2 n2
        ∧ build_dirsearch_command t1 ps1 s1 n1 = build_dirsearch_command t2 ps2 s2 n2
        ∧ build_whatweb_command t1 ps1 s1 n1 = build_whatweb_command t2 ps2 s2 n2
        ∧ build_dnsenum_command t1 ps1 s1 n1 = build_dnsenum_command t2 ps2 s2 n2
        ∧ ∀ te : Bool, build_recon_ng_command t1 ps1 s1 n1 te
            = build_recon_ng_command t2 ps2 s2 n2 te)
    ∧ (∀ t s : String, reconWorkspace t [] s = PyVal.str (reconDefaultWorkspace t s)) := by
  constructor
  · intro t1 t2 ps1 ps2 s1 s2 n1 n2 ht hps hs hn
    subst ht; subst hps; subst hs; subst hn
    exact ⟨rfl, rfl, rfl, rfl, rfl, rfl, rfl, rfl, rfl, fun _ => rfl⟩
  · intro t s
    rfl

/-- Instance of C9 at a concrete input. -/
theorem C9_builders_deterministic_inst :
    build_nmap_command "example.com" [] "s1" "nmap"
      = build_nmap_command "example.com" [] "s1" "nmap"
    ∧ reconWorkspace "example.com" [] "s1"
      = PyVal.str (reconDefaultWorkspace "example.com" "s1") :=
  ⟨(C9_builders_deterministic.1 "example.com" "example.com" [] [] "s1" "s1"
      "nmap" "nmap" rfl rfl rfl rfl).1,
   C9_builders_deterministic.2 "example.com" "s1"⟩
